import Mathlib

/-!
Verification of the HookHub decision-engine core
(`app/services/similarity.py` and `app/services/decision_engine.py`).

The Python code is shallowly embedded: Python floats become exact rationals
(`ℚ`), Python `None`/values become `Option`, Python truthiness of strings and
ints is modelled explicitly, dictionaries with insertion order become
association lists, and the one fallible code path (tuple unpacking of a
non-tuple) is modelled with `Except`.
-/

namespace HookHub

/-- Python truthiness of an `Optional[str]`: `None` and `""` are falsy. -/
def pyTruthyStr : Option String → Bool
  | none => false
  | some s => s ≠ ""

/-- Python truthiness of an `Optional[int]`: `None` and `0` are falsy. -/
def pyTruthyInt : Option Int → Bool
  | none => false
  | some n => n ≠ 0

/-- Python `int(q)` on a float/rational: truncation toward zero. -/
def pyInt (q : ℚ) : Int :=
  if 0 ≤ q then ⌊q⌋ else ⌈q⌉

/-- Python substring test `needle in hay` on character lists. -/
def pyContainsSub (hay needle : List Char) : Bool :=
  (List.range (hay.length + 1)).any (fun i => needle.isPrefixOf (hay.drop i))

/-- Python `str.split()` (no argument): split on whitespace runs, dropping
empty tokens. -/
def pyWords (s : String) : List String :=
  (s.split Char.isWhitespace).filter (fun w => w ≠ "")

/-- `app/schemas/request.py` `ErrorSignature`: all three fields optional. -/
structure ErrorSignature where
  http_status_code : Option Int
  error_type : Option String
  error_message_pattern : Option String
deriving DecidableEq

/-- `app/schemas/request.py` `WebhookHealth`.  The timestamp is abstracted to
an integer; none of these fields influence the decision logic. -/
structure WebhookHealth where
  webhook_id : Int
  total_failures : Nat
  total_successes : Nat
  consecutive_failures : Nat
  circuit_breaker_state : Option String
  last_failure_time : Option Int
deriving DecidableEq

/-- `app/schemas/request.py` `ClassifyErrorRequest`. -/
structure ClassifyErrorRequest where
  error_signature : ErrorSignature
  retry_count : Nat
  recent_failure_rate : ℚ
  webhook_health : WebhookHealth
deriving DecidableEq

/-- The metadata dictionary built by `_load_historical_outcomes`, restricted
to the two keys the decision logic reads (`"decision"` and `"outcome"`; the
`retry_count`/`created_at`/`event_status` entries are never read downstream).
`none` models a missing key (`dict.get` returning `None`). -/
structure HistMeta where
  decision : Option String
  outcome : Option String
deriving DecidableEq

/-- `app/schemas/response.py` `DecisionEvidence`. -/
structure DecisionEvidence where
  sample_size : Nat
  success_rate : ℚ
  decision_type : String
  similarity_score : Option ℚ
  confidence_score : ℚ
deriving DecidableEq

/-- `app/schemas/response.py` `ClassifyErrorResponse`. -/
structure ClassifyErrorResponse where
  decision : String
  confidence_score : ℚ
  explanation : String
  evidence : DecisionEvidence
  fallback_used : Bool
deriving DecidableEq

/-- The decision-engine configuration read from `app/core/config.py`
(`settings`); supplied as an explicit parameter. -/
structure Settings where
  MIN_SAMPLE_SIZE : Nat
  CONFIDENCE_THRESHOLD : ℚ
  SIMILARITY_THRESHOLD : ℚ
deriving DecidableEq

/-- The defaults of `app/core/config.py`: 5, 0.6, 0.8. -/
def defaultSettings : Settings :=
  { MIN_SAMPLE_SIZE := 5, CONFIDENCE_THRESHOLD := 3/5, SIMILARITY_THRESHOLD := 4/5 }

/-! ## Similarity matcher (`app/services/similarity.py`) -/

/-- Status-code feature of `calculate_similarity` (lines 36-54): both present
uses exact match, then Python floor division `// 100` for the bucket; both
absent scores 1.0; exactly one present scores 0.2. -/
def statusScore : Option Int → Option Int → ℚ
  | some c1, some c2 =>
      if c1 = c2 then 1
      else if Int.fdiv c1 100 = Int.fdiv c2 100 then 1/2
      else 0
  | none, none => 1
  | _, _ => 1/5

/-- Error-type feature of `calculate_similarity` (lines 57-68).  The Python
conditions `s1.error_type and s2.error_type` / `not ... and not ...` use
string truthiness, so an empty string behaves like an absent value. -/
def errorTypeScore (t1 t2 : Option String) : ℚ :=
  if pyTruthyStr t1 && pyTruthyStr t2 then
    if t1 = t2 then 1 else 0
  else if !pyTruthyStr t1 && !pyTruthyStr t2 then 1
  else 0

/-- Message-pattern feature of `calculate_similarity` (lines 71-101):
both truthy patterns are lowered and tokenised; non-empty token sets use
Jaccard similarity, otherwise equality / substring containment; both falsy
patterns score 1.0; mixed truthiness scores 0.0. -/
def messageScore (p1 p2 : Option String) : ℚ :=
  if pyTruthyStr p1 && pyTruthyStr p2 then
    let pattern1_lower := (p1.getD "").toLower
    let pattern2_lower := (p2.getD "").toLower
    let words1 := (pyWords pattern1_lower).toFinset
    let words2 := (pyWords pattern2_lower).toFinset
    if words1 ≠ ∅ && words2 ≠ ∅ then
      let common_words := words1 ∩ words2
      let all_words := words1 ∪ words2
      if all_words ≠ ∅ then (common_words.card : ℚ) / (all_words.card : ℚ)
      else 0
    else
      if pattern1_lower = pattern2_lower then 1
      else if pyContainsSub pattern2_lower.data pattern1_lower.data
              || pyContainsSub pattern1_lower.data pattern2_lower.data then 7/10
      else 0
  else if !pyTruthyStr p1 && !pyTruthyStr p2 then 1
  else 0

/-- `ErrorSimilarityMatcher.calculate_similarity`: weighted blend of the three
features with fixed weights 0.4 / 0.4 / 0.2, with the defensive guard for an
empty or zero weight list (lines 104-110). -/
def calculate_similarity (signature1 signature2 : ErrorSignature) : ℚ :=
  let scores := [statusScore signature1.http_status_code signature2.http_status_code,
                 errorTypeScore signature1.error_type signature2.error_type,
                 messageScore signature1.error_message_pattern signature2.error_message_pattern]
  let weights : List ℚ := [2/5, 2/5, 1/5]
  if weights = [] ∨ weights.sum = 0 then 0
  else ((scores.zip weights).map (fun p => p.1 * p.2)).sum / weights.sum

/-! ## Stable descending sort

`find_similar_errors` ends with `similar.sort(key=lambda x: x[2], reverse=True)`:
a stable sort, descending on the score.  Any stable descending sort is
extensionally the same list; it is embedded here as the classic stable
insertion sort (an element is inserted after every strictly greater key and
before every equal key, so earlier input elements stay first among ties). -/

/-- Insert `x` into `l` behind all elements whose key strictly exceeds
`key x`. -/
def insertDescBy (key : α → ℚ) (x : α) : List α → List α
  | [] => [x]
  | y :: ys => if key x < key y then y :: insertDescBy key x ys else x :: y :: ys

/-- Stable descending insertion sort by `key`. -/
def sortDescBy (key : α → ℚ) : List α → List α
  | [] => []
  | x :: xs => insertDescBy key x (sortDescBy key xs)

/-- The filtering pass of `ErrorSimilarityMatcher.find_similar_errors`
(lines 129-138): score every historical record against the target and keep
those with `similarity >= threshold`, in input order, paired with the score. -/
def similarCandidates (target_signature : ErrorSignature)
    (historical_signatures : List (ErrorSignature × HistMeta)) (threshold : ℚ) :
    List (ErrorSignature × HistMeta × ℚ) :=
  historical_signatures.filterMap (fun sm =>
    let similarity := calculate_similarity target_signature sm.1
    if threshold ≤ similarity then some (sm.1, sm.2, similarity) else none)

/-- `ErrorSimilarityMatcher.find_similar_errors`: filter by threshold, then
sort by similarity score descending (Python's stable `list.sort`). -/
def find_similar_errors (target_signature : ErrorSignature)
    (historical_signatures : List (ErrorSignature × HistMeta)) (threshold : ℚ) :
    List (ErrorSignature × HistMeta × ℚ) :=
  sortDescBy (fun e => e.2.2) (similarCandidates target_signature historical_signatures threshold)

/-! ## Decision engine (`app/services/decision_engine.py`) -/

/-- The `"decision"` key as the grouping loop sees it: `metadata.get("decision")`
followed by `if not decision: continue`, so a missing key or an empty string
is skipped (Python truthiness). -/
def truthyDecision (m : HistMeta) : Option String :=
  match m.decision with
  | none => none
  | some d => if d = "" then none else some d

/-- One per-decision accumulator cell of `_compute_decision_success_rates`:
`success_count` and `total_count` (the collected per-outcome similarity lists
are dead downstream and are omitted). -/
structure RawStat where
  success_count : Nat
  total_count : Nat
deriving DecidableEq

/-- Update the insertion-ordered association list for decision `d`: bump an
existing cell, or append a fresh cell at the end (a Python dict preserves
first-insertion order of its keys). -/
def bumpStats (acc : List (String × RawStat)) (d : String) (success : Bool) :
    List (String × RawStat) :=
  match acc with
  | [] => [(d, ⟨if success then 1 else 0, 1⟩)]
  | (k, st) :: rest =>
      if k = d then
        (k, ⟨st.success_count + (if success then 1 else 0), st.total_count + 1⟩) :: rest
      else (k, st) :: bumpStats rest d success

/-- One iteration of the grouping loop of `_compute_decision_success_rates`
(lines 184-205): skip falsy decisions, otherwise bump the decision's cell with
the record's outcome. -/
def statsStep (acc : List (String × RawStat)) (e : ErrorSignature × HistMeta × ℚ) :
    List (String × RawStat) :=
  match truthyDecision e.2.1 with
  | none => acc
  | some d => bumpStats acc d (decide (e.2.1.outcome = some "success"))

/-- The grouping loop of `_compute_decision_success_rates` (lines 182-205),
as an insertion-ordered association list (Python dict iteration order). -/
def computeStats (similar_errors : List (ErrorSignature × HistMeta × ℚ)) :
    List (String × RawStat) :=
  similar_errors.foldl statsStep []

/-- One entry of the `success_rates` dictionary (lines 208-216). -/
structure DecisionStats where
  success_rate : ℚ
  sample_size : Nat
  success_count : Nat
deriving DecidableEq

/-- `DecisionEngine._compute_decision_success_rates`: success rate per
decision type, skipping zero-total groups (dead guard: every group has
total ≥ 1 by construction). -/
def compute_decision_success_rates (similar_errors : List (ErrorSignature × HistMeta × ℚ)) :
    List (String × DecisionStats) :=
  (computeStats similar_errors).filterMap (fun p =>
    if 0 < p.2.total_count then
      some (p.1, ⟨(p.2.success_count : ℚ) / (p.2.total_count : ℚ),
                  p.2.total_count, p.2.success_count⟩)
    else none)

/-- Lines 253-255 of `_choose_best_decision`: blended confidence from sample
size and distance of the success rate from 0.5. -/
def confidence_score_of (settings : Settings) (stats : DecisionStats) : ℚ :=
  let sample_confidence := min 1 ((stats.sample_size : ℚ) / (settings.MIN_SAMPLE_SIZE : ℚ))
  let rate_confidence := |stats.success_rate - 1/2| * 2
  sample_confidence * (3/5) + rate_confidence * (2/5)

/-- Line 258: `decision_score = success_rate * confidence_score`. -/
def decision_score_of (settings : Settings) (stats : DecisionStats) : ℚ :=
  stats.success_rate * confidence_score_of settings stats

/-- The `DecisionEvidence` built at lines 263-269 for a candidate decision. -/
def mkEvidence (settings : Settings) (avg_similarity : ℚ) (d : String)
    (stats : DecisionStats) : DecisionEvidence :=
  { sample_size := stats.sample_size
    success_rate := stats.success_rate
    decision_type := d
    similarity_score := some avg_similarity
    confidence_score := confidence_score_of settings stats }

/-- The selection loop of `_choose_best_decision` (lines 237-269): running
best decision/evidence and best score, updated on strict improvement only. -/
def selectBestLoop (settings : Settings) (avg_similarity : ℚ) :
    List (String × DecisionStats) → Option (String × DecisionEvidence) → ℚ →
    Option (String × DecisionEvidence) × ℚ
  | [], best, best_score => (best, best_score)
  | (d, stats) :: rest, best, best_score =>
      let decision_score := decision_score_of settings stats
      if best_score < decision_score then
        selectBestLoop settings avg_similarity rest
          (some (d, mkEvidence settings avg_similarity d stats)) decision_score
      else
        selectBestLoop settings avg_similarity rest best best_score

/-- `DecisionEngine._fallback_decision`: the static safety policy; note the
Python truthiness in `http_status_code and lo <= http_status_code < hi`. -/
def fallback_decision (request : ClassifyErrorRequest) : ClassifyErrorResponse :=
  let s := request.error_signature
  let de : String × String :=
    if s.http_status_code = some 429 then
      ("RETRY", "Rate limiting detected. Safe fallback: RETRY (rate limits are typically temporary).")
    else if pyTruthyInt s.http_status_code
            && decide (500 ≤ s.http_status_code.getD 0) && decide (s.http_status_code.getD 0 < 600) then
      ("RETRY", "Server error detected. Safe fallback: RETRY (server errors are often transient).")
    else if pyTruthyInt s.http_status_code
            && decide (400 ≤ s.http_status_code.getD 0) && decide (s.http_status_code.getD 0 < 500) then
      ("FAIL_PERMANENT", "Client error detected. Safe fallback: FAIL_PERMANENT (client errors typically don't resolve with retry).")
    else if s.error_type = some "NETWORK_ERROR" ∨ s.error_type = some "TIMEOUT_ERROR" then
      ("RETRY", "Network error detected. Safe fallback: RETRY (network issues are often transient).")
    else
      ("RETRY", "Insufficient historical data. Safe fallback: RETRY (conservative approach).")
  { decision := de.1
    confidence_score := 3/10
    explanation := de.2
    evidence := { sample_size := 0, success_rate := 1/2, decision_type := de.1,
                  similarity_score := none, confidence_score := 3/10 }
    fallback_used := true }

/-- What `_choose_best_decision` actually returns: a `(decision, evidence)`
tuple on the happy path, or — on its two internal fallback branches — a whole
`ClassifyErrorResponse` (lines 271-277), despite its declared return type. -/
inductive ChooseResult where
  | pair (decision : String) (evidence : DecisionEvidence)
  | response (r : ClassifyErrorResponse)
deriving DecidableEq

/-- `DecisionEngine._choose_best_decision` (lines 220-279): mean similarity
over the whole matched set, the selection loop from `best_score = -1.0`, then
the confidence-threshold and sample-size guards, each of which returns the
fallback *response* instead of a tuple. -/
def choose_best_decision (settings : Settings)
    (decision_success_rates : List (String × DecisionStats))
    (similar_errors : List (ErrorSignature × HistMeta × ℚ))
    (request : ClassifyErrorRequest) : ChooseResult :=
  let avg_similarity : ℚ :=
    if similar_errors = [] then 0
    else (similar_errors.map (fun e => e.2.2)).sum / (similar_errors.length : ℚ)
  match selectBestLoop settings avg_similarity decision_success_rates none (-1) with
  | (none, _) => .response (fallback_decision request)
  | (some (best_decision, best_evidence), _) =>
      if best_evidence.confidence_score < settings.CONFIDENCE_THRESHOLD then
        .response (fallback_decision request)
      else if best_decision = "" ∨ best_evidence.sample_size < settings.MIN_SAMPLE_SIZE then
        .response (fallback_decision request)
      else .pair best_decision best_evidence

/-- `DecisionEngine._generate_explanation` (lines 335-379): deterministic
template with Python `int()` truncation for the percentages, and truthiness
tests on `similarity_score` (0.0 is falsy), the status code and the type. -/
def generate_explanation (decision : String) (evidence : DecisionEvidence)
    (request : ClassifyErrorRequest) (similar_count : Nat) : String :=
  let success_rate_pct := pyInt (evidence.success_rate * 100)
  let confidence_pct := pyInt (evidence.confidence_score * 100)
  let base := ["Based on " ++ toString evidence.sample_size ++ " similar historical errors",
               "(" ++ toString similar_count ++ " matched by similarity),",
               decision ++ " has a " ++ toString success_rate_pct ++ "% success rate."]
  let withSim :=
    match evidence.similarity_score with
    | some sim => if sim ≠ 0 then
        base ++ ["Similarity score: " ++ toString (pyInt (sim * 100)) ++ "%."]
      else base
    | none => base
  let error_desc :=
    (if pyTruthyInt request.error_signature.http_status_code then
       ["HTTP " ++ toString (request.error_signature.http_status_code.getD 0)]
     else []) ++
    (if pyTruthyStr request.error_signature.error_type then
       [request.error_signature.error_type.getD ""]
     else [])
  let withErr :=
    if error_desc ≠ [] then withSim ++ ["Error: " ++ String.intercalate ", " error_desc ++ "."]
    else withSim
  String.intercalate " " (withErr ++ ["Confidence: " ++ toString confidence_pct ++ "%."])

/-- The exception raised when Python unpacks an iterable of the wrong length,
as in `best_decision, evidence = self._choose_best_decision(...)` when a
5-field pydantic model is returned instead of a 2-tuple. -/
inductive PyError where
  | valueError (msg : String)
deriving DecidableEq

/-- `DecisionEngine.classify_error` (lines 33-92), with the historical data
supplied by the caller (the database load in `_load_historical_outcomes` is
the out-of-scope persistence collaborator).  The three `if not ...` guards
return the fallback response; the tuple unpacking of `_choose_best_decision`'s
result raises `ValueError` when a fallback response comes back instead of a
pair, because iterating the 5-field model yields 5 items. -/
def classify_error (settings : Settings) (request : ClassifyErrorRequest)
    (historical_data : List (ErrorSignature × HistMeta)) :
    Except PyError ClassifyErrorResponse :=
  if historical_data = [] then .ok (fallback_decision request)
  else
    let similar_errors :=
      find_similar_errors request.error_signature historical_data settings.SIMILARITY_THRESHOLD
    if similar_errors = [] then .ok (fallback_decision request)
    else
      let decision_success_rates := compute_decision_success_rates similar_errors
      if decision_success_rates = [] then .ok (fallback_decision request)
      else
        match choose_best_decision settings decision_success_rates similar_errors request with
        | .response _ => .error (.valueError "too many values to unpack (expected 2)")
        | .pair best_decision evidence =>
            let explanation :=
              generate_explanation best_decision evidence request similar_errors.length
            .ok { decision := best_decision
                  confidence_score := evidence.confidence_score
                  explanation := explanation
                  evidence := evidence
                  fallback_used := false }

/-- Project the `ok` value out of a classification result. -/
def okOr (e : Except PyError ClassifyErrorResponse) (d : ClassifyErrorResponse) :
    ClassifyErrorResponse :=
  match e with
  | .ok r => r
  | .error _ => d

/-! ## Concrete inputs used by witnesses -/

/-- A signature with only a 500 status code. -/
def sig500 : ErrorSignature := ⟨some 500, none, none⟩

/-- A request carrying `sig500`. -/
def req500 : ClassifyErrorRequest := ⟨sig500, 0, 0, ⟨1, 0, 0, 0, none, none⟩⟩

/-- A historical record matching `sig500` whose taken action was RETRY. -/
def histRec (outcome : String) : ErrorSignature × HistMeta :=
  (sig500, ⟨some "RETRY", some outcome⟩)

/-- Ten RETRY records: eight resolved, two not. -/
def hist10 : List (ErrorSignature × HistMeta) :=
  List.replicate 8 (histRec "success") ++ List.replicate 2 (histRec "failure")

/-- Five RETRY records, all resolved. -/
def hist5 : List (ErrorSignature × HistMeta) :=
  List.replicate 5 (histRec "success")

/-- First-appearance de-duplication: the key order of a Python dict filled by
the grouping loop. -/
def firstSeenAux (acc : List String) : List String → List String
  | [] => acc
  | d :: rest => if d ∈ acc then firstSeenAux acc rest else firstSeenAux (acc ++ [d]) rest

/-- Distinct decisions in first-appearance order. -/
def firstSeen (l : List String) : List String := firstSeenAux [] l

/-- The truthy decision strings of a matched set, in input order. -/
def truthyDecisions (similar_errors : List (ErrorSignature × HistMeta × ℚ)) : List String :=
  similar_errors.filterMap (fun e => truthyDecision e.2.1)

/-- A two-action matched set (RETRY succeeded, FAIL_PERMANENT failed). -/
def simC : List (ErrorSignature × HistMeta × ℚ) :=
  [(sig500, ⟨some "RETRY", some "success"⟩, 1),
   (sig500, ⟨some "FAIL_PERMANENT", some "failure"⟩, 1)]

/-- A fully-specified signature. -/
def sigFull : ErrorSignature := ⟨some 429, some "RATE_LIMIT", some "rate limit"⟩

/-- One matching resolved RETRY record. -/
def hist1 : List (ErrorSignature × HistMeta) := [histRec "success"]

/-- Three matching resolved RETRY records. -/
def hist3 : List (ErrorSignature × HistMeta) := List.replicate 3 (histRec "success")

/-- The ten-record matched set produced by `hist10`. -/
def simL10 : List (ErrorSignature × HistMeta × ℚ) :=
  List.replicate 8 (sig500, (⟨some "RETRY", some "success"⟩ : HistMeta), (1:ℚ))
    ++ List.replicate 2 (sig500, (⟨some "RETRY", some "failure"⟩ : HistMeta), (1:ℚ))

/-- A request whose signature is only a 429 status code. -/
def req429 : ClassifyErrorRequest := ⟨⟨some 429, none, none⟩, 0, 0, ⟨1, 0, 0, 0, none, none⟩⟩

/-! ## Lemmas about the stable descending sort -/

theorem insertDescBy_perm (key : α → ℚ) (x : α) (l : List α) :
    List.Perm (insertDescBy key x l) (x :: l) := by
  induction l with
  | nil => simp [insertDescBy]
  | cons y ys ih =>
      simp only [insertDescBy]
      split
      · exact (List.Perm.cons y ih).trans (List.Perm.swap x y ys)
      · exact List.Perm.refl _

theorem sortDescBy_perm (key : α → ℚ) (l : List α) :
    List.Perm (sortDescBy key l) l := by
  induction l with
  | nil => exact List.Perm.refl _
  | cons x xs ih =>
      exact (insertDescBy_perm key x (sortDescBy key xs)).trans (List.Perm.cons x ih)

theorem pairwise_insertDescBy (key : α → ℚ) (x : α) (l : List α)
    (h : l.Pairwise (fun a b => key b ≤ key a)) :
    (insertDescBy key x l).Pairwise (fun a b => key b ≤ key a) := by
  induction l with
  | nil => simp [insertDescBy]
  | cons y ys ih =>
      rw [List.pairwise_cons] at h
      simp only [insertDescBy]
      split
      · rename_i hlt
        rw [List.pairwise_cons]
        refine ⟨fun z hz => ?_, ih h.2⟩
        rcases List.mem_cons.mp ((insertDescBy_perm key x ys).mem_iff.mp hz) with hz | hz
        · rw [hz]; exact le_of_lt hlt
        · exact h.1 z hz
      · rename_i hge
        rw [List.pairwise_cons]
        refine ⟨fun z hz => ?_, List.pairwise_cons.mpr h⟩
        rcases List.mem_cons.mp hz with hz | hz
        · rw [hz]; exact le_of_not_lt hge
        · exact le_trans (h.1 z hz) (le_of_not_lt hge)

theorem pairwise_sortDescBy (key : α → ℚ) (l : List α) :
    (sortDescBy key l).Pairwise (fun a b => key b ≤ key a) := by
  induction l with
  | nil => simp [sortDescBy]
  | cons x xs ih => exact pairwise_insertDescBy key x (sortDescBy key xs) ih

theorem filter_insertDescBy_ne (key : α → ℚ) (x : α) (l : List α) (c : ℚ) (hx : key x ≠ c) :
    (insertDescBy key x l).filter (fun a => decide (key a = c))
      = l.filter (fun a => decide (key a = c)) := by
  induction l with
  | nil => simp [insertDescBy, hx]
  | cons y ys ih =>
      simp only [insertDescBy]
      split
      · simp only [List.filter_cons, ih]
      · simp [List.filter_cons, hx]

theorem filter_insertDescBy_eq (key : α → ℚ) (x : α) (l : List α) :
    (insertDescBy key x l).filter (fun a => decide (key a = key x))
      = x :: l.filter (fun a => decide (key a = key x)) := by
  induction l with
  | nil => simp [insertDescBy]
  | cons y ys ih =>
      simp only [insertDescBy]
      split
      · rename_i hlt
        have hy : key y ≠ key x := fun h => absurd hlt (by rw [h]; exact lt_irrefl _)
        rw [List.filter_cons, ih]
        simp [hy]
      · simp [List.filter_cons]

theorem filter_sortDescBy (key : α → ℚ) (l : List α) (c : ℚ) :
    (sortDescBy key l).filter (fun a => decide (key a = c))
      = l.filter (fun a => decide (key a = c)) := by
  induction l with
  | nil => rfl
  | cons x xs ih =>
      simp only [sortDescBy]
      by_cases hx : key x = c
      · subst hx
        rw [filter_insertDescBy_eq, ih, List.filter_cons]
        simp
      · rw [filter_insertDescBy_ne key x _ c hx, ih, List.filter_cons]
        simp [hx]

/-- Unpack membership in the filtering pass of `find_similar_errors`. -/
theorem mem_similarCandidates {target : ErrorSignature}
    {hist : List (ErrorSignature × HistMeta)} {threshold : ℚ}
    {e : ErrorSignature × HistMeta × ℚ} (h : e ∈ similarCandidates target hist threshold) :
    (e.1, e.2.1) ∈ hist ∧ e.2.2 = calculate_similarity target e.1 ∧ threshold ≤ e.2.2 := by
  rcases List.mem_filterMap.mp h with ⟨sm, hsm, heq⟩
  by_cases hth : threshold ≤ calculate_similarity target sm.1
  · simp only [hth, if_pos] at heq
    cases heq
    exact ⟨hsm, rfl, hth⟩
  · simp [hth] at heq

/-- C6: `find_similar` returns only records whose similarity score to the
target is at least the threshold, paired with their true scores; the result is
a permutation of the threshold-filtered input, sorted by score in descending
order, and records of equal score keep their original input order (filtering
the output at any fixed score gives exactly the input-ordered candidates at
that score). -/
theorem find_similar_errors_spec (target : ErrorSignature)
    (hist : List (ErrorSignature × HistMeta)) (threshold : ℚ) :
    (∀ e ∈ find_similar_errors target hist threshold,
        (e.1, e.2.1) ∈ hist ∧ e.2.2 = calculate_similarity target e.1 ∧ threshold ≤ e.2.2) ∧
    (find_similar_errors target hist threshold).Pairwise (fun a b => b.2.2 ≤ a.2.2) ∧
    List.Perm (find_similar_errors target hist threshold) (similarCandidates target hist threshold) ∧
    (∀ c : ℚ, (find_similar_errors target hist threshold).filter (fun e => decide (e.2.2 = c))
        = (similarCandidates target hist threshold).filter (fun e => decide (e.2.2 = c))) := by
  simp only [find_similar_errors]
  refine ⟨fun e he => ?_, ?_, ?_, fun c => ?_⟩
  · exact mem_similarCandidates
      ((sortDescBy_perm (fun e => e.2.2) (similarCandidates target hist threshold)).mem_iff.mp he)
  · exact pairwise_sortDescBy (fun e => e.2.2) (similarCandidates target hist threshold)
  · exact sortDescBy_perm (fun e => e.2.2) (similarCandidates target hist threshold)
  · exact filter_sortDescBy (fun e => e.2.2) (similarCandidates target hist threshold) c


/-- C4: the fallback decision is a pure case analysis on the request's error
signature — 429 gives RETRY, 5xx gives RETRY, other 4xx gives FAIL_PERMANENT,
everything else (network/timeout types included) gives RETRY — and it always
carries confidence 0.3, evidence sample size 0, success rate 0.5, no
similarity score and `fallback_used = true`. -/
theorem fallback_decision_spec (request : ClassifyErrorRequest) :
    (request.error_signature.http_status_code = some 429 →
        (fallback_decision request).decision = "RETRY") ∧
    (∀ c : Int, request.error_signature.http_status_code = some c → 500 ≤ c → c < 600 →
        (fallback_decision request).decision = "RETRY") ∧
    (∀ c : Int, request.error_signature.http_status_code = some c → 400 ≤ c → c < 500 →
        c ≠ 429 → (fallback_decision request).decision = "FAIL_PERMANENT") ∧
    ((∀ c : Int, request.error_signature.http_status_code = some c → (c < 400 ∨ 600 ≤ c)) →
        (fallback_decision request).decision = "RETRY") ∧
    (fallback_decision request).confidence_score = 3/10 ∧
    (fallback_decision request).evidence.sample_size = 0 ∧
    (fallback_decision request).evidence.success_rate = 1/2 ∧
    (fallback_decision request).evidence.similarity_score = none ∧
    (fallback_decision request).fallback_used = true := by
  refine ⟨?_, ?_, ?_, ?_, rfl, rfl, rfl, rfl, rfl⟩
  · intro h
    simp [fallback_decision, h]
  · intro c h h5 h6
    simp only [fallback_decision, h, pyTruthyInt, Option.getD_some]
    split_ifs with h1 h2 h3 h4 <;> first | rfl | (exfalso; simp_all; try omega)
  · intro c h h4 h5 h429
    simp only [fallback_decision, h, pyTruthyInt, Option.getD_some]
    split_ifs with h1 h2 h3 h6 <;> first | rfl | (exfalso; simp_all; try omega)
  · intro hall
    cases hs : request.error_signature.http_status_code with
    | none =>
        simp only [fallback_decision, hs, pyTruthyInt]
        split_ifs <;> simp_all
    | some c =>
        have hrange := hall c hs
        simp only [fallback_decision, hs, pyTruthyInt, Option.getD_some]
        split_ifs with h1 h2 h3 h4 <;> first | rfl | (exfalso; simp_all; try omega)

/-- Witness for C4 at a concrete request with status code 429. -/
theorem fallback_decision_spec_witness :
    (fallback_decision req429).decision = "RETRY" ∧
    (fallback_decision req429).confidence_score = 3/10 :=
  ⟨(fallback_decision_spec req429).1 rfl, (fallback_decision_spec req429).2.2.2.2.1⟩

/-- C8: every classification that actually returns with `fallback_used = true`
has evidence with sample size 0 and no similarity score; and with an empty
historical list, classification returns the fallback with sample size 0. -/
theorem classify_fallback_invariant (settings : Settings) (request : ClassifyErrorRequest)
    (historical_data : List (ErrorSignature × HistMeta)) (r : ClassifyErrorResponse)
    (h : classify_error settings request historical_data = .ok r) :
    (r.fallback_used = true → r.evidence.sample_size = 0 ∧ r.evidence.similarity_score = none) ∧
    (historical_data = [] → r.fallback_used = true ∧ r.evidence.sample_size = 0) := by
  simp only [classify_error] at h
  split at h
  · rename_i hempty
    cases h
    exact ⟨fun _ => ⟨rfl, rfl⟩, fun _ => ⟨rfl, rfl⟩⟩
  · rename_i hne
    split at h
    · cases h
      exact ⟨fun _ => ⟨rfl, rfl⟩, fun he => absurd he hne⟩
    · split at h
      · cases h
        exact ⟨fun _ => ⟨rfl, rfl⟩, fun he => absurd he hne⟩
      · split at h
        · cases h
        · cases h
          exact ⟨fun hb => Bool.noConfusion hb, fun he => absurd he hne⟩

/-- Witness for C8 at a concrete request with an empty historical list. -/
theorem classify_fallback_invariant_witness :
    (fallback_decision req500).fallback_used = true ∧
    (fallback_decision req500).evidence.sample_size = 0 :=
  (classify_fallback_invariant defaultSettings req500 [] (fallback_decision req500) rfl).2 rfl

/-! ## Lemmas about the per-decision grouping -/


theorem bumpStats_keys (acc : List (String × RawStat)) (d : String) (success : Bool) :
    (bumpStats acc d success).map Prod.fst =
      if d ∈ acc.map Prod.fst then acc.map Prod.fst else acc.map Prod.fst ++ [d] := by
  induction acc with
  | nil => simp [bumpStats]
  | cons p rest ih =>
      obtain ⟨k, st⟩ := p
      simp only [bumpStats]
      by_cases hk : k = d
      · subst hk
        simp
      · rw [if_neg hk]
        simp only [List.map_cons, ih]
        have hdk : d ≠ k := fun h => hk h.symm
        by_cases hd : d ∈ rest.map Prod.fst
        · simp [List.mem_cons, hd, hdk]
        · simp [List.mem_cons, hd, hdk]

theorem bumpStats_pos (acc : List (String × RawStat)) (d : String) (success : Bool)
    (h : ∀ p ∈ acc, 0 < p.2.total_count) :
    ∀ p ∈ bumpStats acc d success, 0 < p.2.total_count := by
  induction acc with
  | nil =>
      intro p hp
      simp only [bumpStats, List.mem_singleton] at hp
      subst hp
      simp
  | cons q rest ih =>
      obtain ⟨k, st⟩ := q
      intro p hp
      simp only [bumpStats] at hp
      by_cases hk : k = d
      · rw [if_pos hk] at hp
        rcases List.mem_cons.mp hp with hp | hp
        · subst hp; simp
        · exact h p (List.mem_cons_of_mem _ hp)
      · rw [if_neg hk] at hp
        rcases List.mem_cons.mp hp with hp | hp
        · subst hp; exact h _ (List.mem_cons_self _ _)
        · exact ih (fun q hq => h q (List.mem_cons_of_mem _ hq)) p hp

theorem foldl_statsStep_keys (l : List (ErrorSignature × HistMeta × ℚ)) :
    ∀ acc : List (String × RawStat),
      (l.foldl statsStep acc).map Prod.fst = firstSeenAux (acc.map Prod.fst) (truthyDecisions l) := by
  induction l with
  | nil => intro acc; rfl
  | cons e rest ih =>
      intro acc
      rw [List.foldl_cons]
      have hTD : truthyDecisions (e :: rest) =
          match truthyDecision e.2.1 with
          | none => truthyDecisions rest
          | some d => d :: truthyDecisions rest := by
        simp only [truthyDecisions, List.filterMap_cons]
        cases truthyDecision e.2.1 <;> rfl
      cases htd : truthyDecision e.2.1 with
      | none =>
          rw [hTD, htd]
          have hstep : statsStep acc e = acc := by simp [statsStep, htd]
          rw [hstep, ih]
      | some d =>
          rw [hTD, htd]
          have hstep : statsStep acc e = bumpStats acc d (decide (e.2.1.outcome = some "success")) := by
            simp [statsStep, htd]
          rw [hstep, ih, bumpStats_keys]
          by_cases hd : d ∈ acc.map Prod.fst
          · rw [if_pos hd]
            simp only [firstSeenAux, if_pos hd]
          · rw [if_neg hd]
            simp only [firstSeenAux, if_neg hd]

theorem foldl_statsStep_pos (l : List (ErrorSignature × HistMeta × ℚ)) :
    ∀ acc : List (String × RawStat), (∀ p ∈ acc, 0 < p.2.total_count) →
      ∀ p ∈ l.foldl statsStep acc, 0 < p.2.total_count := by
  induction l with
  | nil => intro acc h; exact h
  | cons e rest ih =>
      intro acc h
      rw [List.foldl_cons]
      refine ih (statsStep acc e) ?_
      cases htd : truthyDecision e.2.1 with
      | none => simpa [statsStep, htd] using h
      | some d =>
          have : statsStep acc e = bumpStats acc d (decide (e.2.1.outcome = some "success")) := by
            simp [statsStep, htd]
          rw [this]
          exact bumpStats_pos acc d _ h

theorem computeStats_pos (similar_errors : List (ErrorSignature × HistMeta × ℚ)) :
    ∀ p ∈ computeStats similar_errors, 0 < p.2.total_count :=
  foldl_statsStep_pos similar_errors [] (by intro p hp; cases hp)

theorem rates_map_fst (L : List (String × RawStat)) (h : ∀ p ∈ L, 0 < p.2.total_count) :
    (L.filterMap (fun p =>
      if 0 < p.2.total_count then
        some (p.1, (⟨(p.2.success_count : ℚ) / (p.2.total_count : ℚ),
                    p.2.total_count, p.2.success_count⟩ : DecisionStats))
      else none)).map Prod.fst = L.map Prod.fst := by
  induction L with
  | nil => rfl
  | cons p rest ih =>
      have hp : 0 < p.2.total_count := h p (List.mem_cons_self _ _)
      rw [List.filterMap_cons]
      simp only [if_pos hp, List.map_cons]
      rw [ih (fun q hq => h q (List.mem_cons_of_mem _ hq))]

/-- The key order of the success-rate dictionary is the first-appearance order
of the (truthy) decisions in the matched set. -/
theorem rates_keys (similar_errors : List (ErrorSignature × HistMeta × ℚ)) :
    (compute_decision_success_rates similar_errors).map Prod.fst
      = firstSeen (truthyDecisions similar_errors) := by
  unfold compute_decision_success_rates
  rw [rates_map_fst (computeStats similar_errors) (computeStats_pos similar_errors)]
  have := foldl_statsStep_keys similar_errors []
  simpa [computeStats, firstSeen] using this

/-- Every success rate in the dictionary is a quotient of casts of naturals,
hence non-negative. -/
theorem rates_success_rate_nonneg (similar_errors : List (ErrorSignature × HistMeta × ℚ)) :
    ∀ q ∈ compute_decision_success_rates similar_errors, 0 ≤ q.2.success_rate := by
  intro q hq
  rcases List.mem_filterMap.mp hq with ⟨p, _, hpq⟩
  by_cases hp : 0 < p.2.total_count
  · simp only [if_pos hp] at hpq
    cases hpq
    exact div_nonneg (Nat.cast_nonneg _) (Nat.cast_nonneg _)
  · simp [hp] at hpq

/-! ## Lemmas about the selection loop of `_choose_best_decision` -/

theorem confidence_score_of_nonneg (settings : Settings) (stats : DecisionStats) :
    0 ≤ confidence_score_of settings stats := by
  unfold confidence_score_of
  have h1 : (0:ℚ) ≤ min 1 ((stats.sample_size : ℚ) / (settings.MIN_SAMPLE_SIZE : ℚ)) :=
    le_min (by norm_num) (div_nonneg (Nat.cast_nonneg _) (Nat.cast_nonneg _))
  have h2 : (0:ℚ) ≤ |stats.success_rate - 1/2| * 2 := by positivity
  have := add_nonneg (mul_nonneg h1 (by norm_num : (0:ℚ) ≤ 3/5))
    (mul_nonneg h2 (by norm_num : (0:ℚ) ≤ 2/5))
  simpa using this

theorem decision_score_of_nonneg (settings : Settings) (stats : DecisionStats)
    (h : 0 ≤ stats.success_rate) : 0 ≤ decision_score_of settings stats :=
  mul_nonneg h (confidence_score_of_nonneg settings stats)

theorem selectBestLoop_no_update (settings : Settings) (avg_similarity : ℚ) :
    ∀ (rates : List (String × DecisionStats)) (b0 : Option (String × DecisionEvidence)) (s0 : ℚ),
      (∀ e ∈ rates, decision_score_of settings e.2 ≤ s0) →
      selectBestLoop settings avg_similarity rates b0 s0 = (b0, s0) := by
  intro rates
  induction rates with
  | nil => intro b0 s0 _; rfl
  | cons p rest ih =>
      intro b0 s0 h
      obtain ⟨d, stats⟩ := p
      have hle : decision_score_of settings stats ≤ s0 := h _ (List.mem_cons_self _ _)
      simp only [selectBestLoop, if_neg (not_lt.mpr hle)]
      exact ih b0 s0 (fun e he => h e (List.mem_cons_of_mem _ he))

theorem selectBestLoop_picks (settings : Settings) (avg_similarity : ℚ) :
    ∀ (rates : List (String × DecisionStats)) (i : Nat) (hi : i < rates.length)
      (b0 : Option (String × DecisionEvidence)) (s0 : ℚ),
      s0 < decision_score_of settings (rates.get ⟨i, hi⟩).2 →
      (∀ j (hj : j < rates.length), j < i →
          decision_score_of settings (rates.get ⟨j, hj⟩).2
            < decision_score_of settings (rates.get ⟨i, hi⟩).2) →
      (∀ j (hj : j < rates.length),
          decision_score_of settings (rates.get ⟨j, hj⟩).2
            ≤ decision_score_of settings (rates.get ⟨i, hi⟩).2) →
      (selectBestLoop settings avg_similarity rates b0 s0).1 =
        some ((rates.get ⟨i, hi⟩).1,
              mkEvidence settings avg_similarity (rates.get ⟨i, hi⟩).1 (rates.get ⟨i, hi⟩).2) := by
  intro rates
  induction rates with
  | nil => intro i hi; exact absurd hi (Nat.not_lt_zero i)
  | cons p rest ih =>
      intro i hi b0 s0 hs0 hstrict hall
      obtain ⟨d, stats⟩ := p
      cases i with
      | zero =>
          simp only [List.get] at hs0 hall ⊢
          simp only [selectBestLoop, if_pos hs0]
          rw [selectBestLoop_no_update settings avg_similarity rest _ _ ?_]
          · intro e he
            rcases List.mem_iff_get.mp he with ⟨⟨j, hj⟩, hje⟩
            subst hje
            have := hall (j+1) (Nat.succ_lt_succ hj)
            simpa [List.get] using this
      | succ i' =>
          have hi' : i' < rest.length := Nat.lt_of_succ_lt_succ hi
          have hget : ((d, stats) :: rest).get ⟨i' + 1, hi⟩ = rest.get ⟨i', hi'⟩ := rfl
          rw [hget] at hs0 hstrict hall ⊢
          have hhead : decision_score_of settings stats
              < decision_score_of settings (rest.get ⟨i', hi'⟩).2 := by
            have := hstrict 0 (Nat.succ_le_succ (Nat.zero_le _)) (Nat.succ_pos i')
            simpa [List.get] using this
          by_cases hup : s0 < decision_score_of settings stats
          · simp only [selectBestLoop, if_pos hup]
            exact ih i' hi' _ _ hhead
              (fun j hj hji => by
                have := hstrict (j+1) (Nat.succ_lt_succ hj) (Nat.succ_lt_succ hji)
                simpa [List.get] using this)
              (fun j hj => by
                have := hall (j+1) (Nat.succ_lt_succ hj)
                simpa [List.get] using this)
          · simp only [selectBestLoop, if_neg hup]
            exact ih i' hi' b0 s0 hs0
              (fun j hj hji => by
                have := hstrict (j+1) (Nat.succ_lt_succ hj) (Nat.succ_lt_succ hji)
                simpa [List.get] using this)
              (fun j hj => by
                have := hall (j+1) (Nat.succ_lt_succ hj)
                simpa [List.get] using this)

/-- Any evidence the selection loop ever emits carries the mean similarity of
the whole matched set. -/
theorem selectBestLoop_sim (settings : Settings) (avg_similarity : ℚ) :
    ∀ (rates : List (String × DecisionStats)) (b0 : Option (String × DecisionEvidence)) (s0 : ℚ),
      (∀ p, b0 = some p → p.2.similarity_score = some avg_similarity) →
      ∀ p, (selectBestLoop settings avg_similarity rates b0 s0).1 = some p →
        p.2.similarity_score = some avg_similarity := by
  intro rates
  induction rates with
  | nil => intro b0 s0 h p hp; exact h p hp
  | cons q rest ih =>
      intro b0 s0 h p hp
      obtain ⟨d, stats⟩ := q
      by_cases hup : s0 < decision_score_of settings stats
      · simp only [selectBestLoop, if_pos hup] at hp
        refine ih _ _ ?_ p hp
        intro q hq
        cases hq
        rfl
      · simp only [selectBestLoop, if_neg hup] at hp
        exact ih b0 s0 h p hp

/-- Every non-empty list has a first index attaining its strict maximum. -/
theorem exists_first_argmax (f : α → ℚ) :
    ∀ (l : List α), l ≠ [] → ∃ i, ∃ hi : i < l.length,
      (∀ j (hj : j < l.length), j < i → f (l.get ⟨j, hj⟩) < f (l.get ⟨i, hi⟩)) ∧
      (∀ j (hj : j < l.length), f (l.get ⟨j, hj⟩) ≤ f (l.get ⟨i, hi⟩)) := by
  intro l
  induction l with
  | nil => intro h; exact absurd rfl h
  | cons x xs ih =>
      intro _
      by_cases hxse : xs = []
      · subst hxse
        refine ⟨0, Nat.zero_lt_one, fun j hj hj0 => absurd hj0 (Nat.not_lt_zero j), ?_⟩
        intro j hj
        cases j with
        | zero => exact le_refl _
        | succ j' =>
            exfalso
            simp only [List.length_cons, List.length_nil] at hj
            omega
      · obtain ⟨i', hi', hstrict, hall⟩ := ih hxse
        by_cases hx : f x < f (xs.get ⟨i', hi'⟩)
        · refine ⟨i' + 1, Nat.succ_lt_succ hi', ?_, ?_⟩
          · intro j hj hji
            cases j with
            | zero => simpa [List.get] using hx
            | succ j' =>
                have := hstrict j' (Nat.lt_of_succ_lt_succ hj) (Nat.lt_of_succ_lt_succ hji)
                simpa [List.get] using this
          · intro j hj
            cases j with
            | zero => simpa [List.get] using le_of_lt hx
            | succ j' =>
                have := hall j' (Nat.lt_of_succ_lt_succ hj)
                simpa [List.get] using this
        · refine ⟨0, Nat.succ_pos _, fun j hj hj0 => absurd hj0 (Nat.not_lt_zero j), ?_⟩
          intro j hj
          cases j with
          | zero => exact le_refl _
          | succ j' =>
              have := hall j' (Nat.lt_of_succ_lt_succ hj)
              have hxle := le_of_not_lt hx
              calc f ((x :: xs).get ⟨j' + 1, hj⟩) = f (xs.get ⟨j', Nat.lt_of_succ_lt_succ hj⟩) := rfl
                _ ≤ f (xs.get ⟨i', hi'⟩) := this
                _ ≤ f x := hxle
                _ = f ((x :: xs).get ⟨0, Nat.succ_pos _⟩) := rfl


/-- C5: step 4 of `classify` iterates the candidate actions in first-appearance
order of the matched set (the success-rate dict preserves insertion order), and
the selection loop picks exactly the first index whose `decision_score` is the
strict maximum: strictly above every earlier candidate and at least every later
one — so the strictly highest score wins and first-seen wins exact ties. -/
theorem choose_best_selection (settings : Settings)
    (similar_errors : List (ErrorSignature × HistMeta × ℚ)) (avg_similarity : ℚ)
    (rates : List (String × DecisionStats))
    (hr : rates = compute_decision_success_rates similar_errors)
    (h : rates ≠ []) :
    rates.map Prod.fst = firstSeen (truthyDecisions similar_errors) ∧
    ∃ i, ∃ hi : i < rates.length,
      (selectBestLoop settings avg_similarity rates none (-1)).1
        = some ((rates.get ⟨i, hi⟩).1,
                mkEvidence settings avg_similarity (rates.get ⟨i, hi⟩).1 (rates.get ⟨i, hi⟩).2) ∧
      (∀ j (hj : j < rates.length), j < i →
          decision_score_of settings (rates.get ⟨j, hj⟩).2
            < decision_score_of settings (rates.get ⟨i, hi⟩).2) ∧
      (∀ j (hj : j < rates.length),
          decision_score_of settings (rates.get ⟨j, hj⟩).2
            ≤ decision_score_of settings (rates.get ⟨i, hi⟩).2) := by
  subst hr
  refine ⟨rates_keys similar_errors, ?_⟩
  obtain ⟨i, hi, hstrict, hall⟩ :=
    exists_first_argmax (fun p => decision_score_of settings p.2)
      (compute_decision_success_rates similar_errors) h
  refine ⟨i, hi, ?_, hstrict, hall⟩
  refine selectBestLoop_picks settings avg_similarity _ i hi none (-1) ?_ hstrict hall
  have h0 : 0 ≤ ((compute_decision_success_rates similar_errors).get ⟨i, hi⟩).2.success_rate :=
    rates_success_rate_nonneg similar_errors _ (List.get_mem _ _ _)
  have := decision_score_of_nonneg settings
    ((compute_decision_success_rates similar_errors).get ⟨i, hi⟩).2 h0
  linarith

/-- Witness for C5 on a concrete two-action matched set. -/
theorem choose_best_selection_witness :
    (compute_decision_success_rates simC).map Prod.fst = firstSeen (truthyDecisions simC) :=
  (choose_best_selection defaultSettings simC 1 _ rfl (by with_unfolding_all decide)).1

/-- The mean of a non-empty list is at least any common lower bound. -/
theorem mean_ge (l : List ℚ) (t : ℚ) (hne : l ≠ []) (h : ∀ x ∈ l, t ≤ x) :
    t ≤ l.sum / (l.length : ℚ) := by
  have hpos : 0 < (l.length : ℚ) := by
    have : 0 < l.length := List.length_pos.mpr hne
    exact_mod_cast this
  rw [le_div_iff₀ hpos]
  have hs := List.card_nsmul_le_sum l t h
  rw [nsmul_eq_mul] at hs
  linarith

/-- C10: if a returned classification did not use the fallback, its evidence
carries a similarity score, that score is the mean similarity of the matched
set, and it is at least `SIMILARITY_THRESHOLD` (every matched score clears the
threshold, hence so does their mean). -/
theorem classify_similarity_floor (settings : Settings) (request : ClassifyErrorRequest)
    (historical_data : List (ErrorSignature × HistMeta)) (r : ClassifyErrorResponse)
    (h : classify_error settings request historical_data = .ok r)
    (hf : r.fallback_used = false) :
    ∃ s : ℚ, r.evidence.similarity_score = some s ∧
      s = ((find_similar_errors request.error_signature historical_data
              settings.SIMILARITY_THRESHOLD).map (fun e => e.2.2)).sum
          / ((find_similar_errors request.error_signature historical_data
              settings.SIMILARITY_THRESHOLD).length : ℚ) ∧
      settings.SIMILARITY_THRESHOLD ≤ s := by
  simp only [classify_error] at h
  split at h
  · cases h; simp [fallback_decision] at hf
  · rename_i hne
    split at h
    · cases h; simp [fallback_decision] at hf
    · rename_i hsim
      split at h
      · cases h; simp [fallback_decision] at hf
      · rename_i hrates
        split at h
        · cases h
        · rename_i best ev heq
          cases h
          simp only [choose_best_decision] at heq
          rw [if_neg hsim] at heq
          split at heq
          · cases heq
          · rename_i x bd be ssc hsel2
            split at heq
            · cases heq
            · by_cases hguard : bd = "" ∨ be.sample_size < settings.MIN_SAMPLE_SIZE
              · rw [if_pos hguard] at heq; cases heq
              · rw [if_neg hguard] at heq
                cases heq
                have hsimsc : ev.similarity_score = some
                    (((find_similar_errors request.error_signature historical_data
                        settings.SIMILARITY_THRESHOLD).map (fun e => e.2.2)).sum
                      / ((find_similar_errors request.error_signature historical_data
                        settings.SIMILARITY_THRESHOLD).length : ℚ)) := by
                  refine selectBestLoop_sim settings _
                    (compute_decision_success_rates
                      (find_similar_errors request.error_signature historical_data
                        settings.SIMILARITY_THRESHOLD)) none (-1)
                    (fun q hq => Option.noConfusion hq) (best, ev) ?_
                  rw [hsel2]
                refine ⟨_, hsimsc, rfl, ?_⟩
                have hmem : ∀ x ∈ (find_similar_errors request.error_signature historical_data
                    settings.SIMILARITY_THRESHOLD).map (fun e => e.2.2),
                    settings.SIMILARITY_THRESHOLD ≤ x := by
                  intro x hx
                  rcases List.mem_map.mp hx with ⟨e2, he2, rfl⟩
                  have he2c : e2 ∈ similarCandidates request.error_signature historical_data
                      settings.SIMILARITY_THRESHOLD :=
                    (sortDescBy_perm (fun e => e.2.2) _).mem_iff.mp
                      (by simpa [find_similar_errors] using he2)
                  exact (mem_similarCandidates he2c).2.2
                have hmean := mean_ge _ settings.SIMILARITY_THRESHOLD
                  (by simpa using hsim) hmem
                rwa [List.length_map] at hmean

/-- Witness for C10: five matching resolved RETRY records give a non-fallback
answer whose similarity score is the matched-set mean and clears 0.8. -/
theorem classify_similarity_floor_witness :
    ∃ s : ℚ,
      (okOr (classify_error defaultSettings req500 hist5)
        (fallback_decision req500)).evidence.similarity_score = some s ∧
      s = ((find_similar_errors req500.error_signature hist5
              defaultSettings.SIMILARITY_THRESHOLD).map (fun e => e.2.2)).sum
          / ((find_similar_errors req500.error_signature hist5
              defaultSettings.SIMILARITY_THRESHOLD).length : ℚ) ∧
      defaultSettings.SIMILARITY_THRESHOLD ≤ s :=
  classify_similarity_floor defaultSettings req500 hist5 _
    (by with_unfolding_all rfl) (by with_unfolding_all rfl)

/-! ## Bounds and reflexivity of the similarity features -/

theorem statusScore_bounds (c1 c2 : Option Int) :
    0 ≤ statusScore c1 c2 ∧ statusScore c1 c2 ≤ 1 := by
  cases c1 <;> cases c2 <;> simp only [statusScore] <;> (try split_ifs) <;> norm_num

theorem errorTypeScore_bounds (t1 t2 : Option String) :
    0 ≤ errorTypeScore t1 t2 ∧ errorTypeScore t1 t2 ≤ 1 := by
  unfold errorTypeScore
  split_ifs <;> norm_num

theorem messageScore_bounds (p1 p2 : Option String) :
    0 ≤ messageScore p1 p2 ∧ messageScore p1 p2 ≤ 1 := by
  simp only [messageScore]
  by_cases hb : (pyTruthyStr p1 && pyTruthyStr p2) = true
  · rw [if_pos hb]
    by_cases hw : (decide ¬(pyWords (p1.getD "").toLower).toFinset = ∅
        && decide ¬(pyWords (p2.getD "").toLower).toFinset = ∅) = true
    · rw [if_pos hw]
      by_cases hall : (pyWords (p1.getD "").toLower).toFinset
          ∪ (pyWords (p2.getD "").toLower).toFinset ≠ ∅
      · rw [if_pos hall]
        constructor
        · positivity
        · have hpos : (0:ℚ) < (((pyWords (p1.getD "").toLower).toFinset
              ∪ (pyWords (p2.getD "").toLower).toFinset).card : ℚ) := by
            have hp : 0 < ((pyWords (p1.getD "").toLower).toFinset
                ∪ (pyWords (p2.getD "").toLower).toFinset).card :=
              Finset.card_pos.mpr (Finset.nonempty_iff_ne_empty.mpr hall)
            exact_mod_cast hp
          rw [div_le_one hpos]
          exact_mod_cast Finset.card_le_card Finset.inter_subset_union
      · rw [if_neg hall]; norm_num
    · rw [if_neg hw]
      by_cases he : (p1.getD "").toLower = (p2.getD "").toLower
      · rw [if_pos he]; norm_num
      · rw [if_neg he]
        by_cases hc : (pyContainsSub (p2.getD "").toLower.data (p1.getD "").toLower.data
            || pyContainsSub (p1.getD "").toLower.data (p2.getD "").toLower.data) = true
        · rw [if_pos hc]; norm_num
        · rw [if_neg hc]; norm_num
  · rw [if_neg hb]
    by_cases hb2 : (!pyTruthyStr p1 && !pyTruthyStr p2) = true
    · rw [if_pos hb2]; norm_num
    · rw [if_neg hb2]; norm_num

theorem statusScore_refl (c : Option Int) : statusScore c c = 1 := by
  cases c <;> simp [statusScore]

theorem errorTypeScore_refl (t : Option String) : errorTypeScore t t = 1 := by
  unfold errorTypeScore
  cases h : pyTruthyStr t <;> simp

theorem messageScore_refl (p : Option String) : messageScore p p = 1 := by
  simp only [messageScore]
  cases h : pyTruthyStr p with
  | false => simp [h]
  | true =>
      rw [if_pos (by simp [h])]
      by_cases hWe : (pyWords (p.getD "").toLower).toFinset = ∅
      · rw [if_neg (by simp [hWe])]
        simp
      · rw [if_pos (by simp [hWe]),
            if_pos (by rw [Finset.union_self]; exact hWe)]
        rw [Finset.inter_self, Finset.union_self]
        refine div_self ?_
        exact Nat.cast_ne_zero.mpr (fun hc => hWe (Finset.card_eq_zero.mp hc))

/-- The weighted blend written as a closed form: the guard is dead (the weight
list is the constant `[0.4, 0.4, 0.2]`, whose sum is 1). -/
theorem calculate_similarity_eq (a b : ErrorSignature) :
    calculate_similarity a b =
      statusScore a.http_status_code b.http_status_code * (2/5)
      + errorTypeScore a.error_type b.error_type * (2/5)
      + messageScore a.error_message_pattern b.error_message_pattern * (1/5) := by
  unfold calculate_similarity
  norm_num
  rw [if_neg (by simp)]
  ring

/-- C9: similarity is reflexively 1.0 on a fully-specified signature, and every
similarity value — for all valid signature pairs, fully specified or not —
lies in [0, 1]. -/
theorem calculate_similarity_bounds (a b : ErrorSignature) :
    ((a.http_status_code.isSome ∧ a.error_type.isSome ∧ a.error_message_pattern.isSome) →
      calculate_similarity a a = 1) ∧
    0 ≤ calculate_similarity a b ∧ calculate_similarity a b ≤ 1 := by
  refine ⟨fun hfull => ?_, ?_, ?_⟩
  · rw [calculate_similarity_eq, statusScore_refl, errorTypeScore_refl, messageScore_refl]
    norm_num
  · rw [calculate_similarity_eq]
    have h1 := statusScore_bounds a.http_status_code b.http_status_code
    have h2 := errorTypeScore_bounds a.error_type b.error_type
    have h3 := messageScore_bounds a.error_message_pattern b.error_message_pattern
    nlinarith [h1.1, h2.1, h3.1]
  · rw [calculate_similarity_eq]
    have h1 := statusScore_bounds a.http_status_code b.http_status_code
    have h2 := errorTypeScore_bounds a.error_type b.error_type
    have h3 := messageScore_bounds a.error_message_pattern b.error_message_pattern
    nlinarith [h1.2, h2.2, h3.2]


/-- Witness for C9 at a fully-specified concrete signature. -/
theorem calculate_similarity_bounds_witness :
    calculate_similarity sigFull sigFull = 1 ∧
    0 ≤ calculate_similarity sigFull sig500 ∧ calculate_similarity sigFull sig500 ≤ 1 :=
  ⟨(calculate_similarity_bounds sigFull sig500).1 ⟨rfl, rfl, rfl⟩,
   (calculate_similarity_bounds sigFull sig500).2⟩

/-- C7 counterexample: with error types `some ""` and `none`, exactly one error
type is present (and absence is claimed distinct from any present value), so
the claim demands a feature value of 0.0 — but Python truthiness makes the code
treat the present empty string as absent and return 1.0. -/
theorem errorTypeScore_empty_vs_absent :
    errorTypeScore (some "") none = 1 ∧ ¬ errorTypeScore (some "") none = 0 := by
  constructor
  · simp [errorTypeScore, pyTruthyStr]
  · simp [errorTypeScore, pyTruthyStr]

/-- C7 (amended): the error-type feature is two-valued, and equals 1.0 exactly
when both types are truthy (present and non-empty) and equal, or both falsy
(absent or an empty string); in every other case — including exactly one
truthy type — it is 0.0. -/
theorem errorTypeScore_spec (t1 t2 : Option String) :
    (errorTypeScore t1 t2 = 1 ∨ errorTypeScore t1 t2 = 0) ∧
    (errorTypeScore t1 t2 = 1 ↔
      ((pyTruthyStr t1 = true ∧ pyTruthyStr t2 = true ∧ t1 = t2) ∨
       (pyTruthyStr t1 = false ∧ pyTruthyStr t2 = false))) := by
  unfold errorTypeScore
  split_ifs with h1 h2 h3 <;> simp_all

/-! ## The unpack bug in `classify_error` (C1, C2) -/


/-- C1 (code bug): with one matched RETRY record the winning confidence is
0.52 < 0.6, so `_choose_best_decision` takes its low-confidence fallback
branch and returns a `ClassifyErrorResponse`; `classify_error` then unpacks it
as a 2-tuple and raises `ValueError` instead of returning the fallback
decision. -/
theorem classify_low_confidence_raises :
    classify_error defaultSettings req500 hist1
      = .error (.valueError "too many values to unpack (expected 2)") := by
  with_unfolding_all rfl

/-- C2 (code bug): with three matched resolved RETRY records the confidence is
0.76 ≥ 0.6 but the sample size 3 < 5, so `_choose_best_decision` takes its
small-sample fallback branch and returns a response; `classify_error` raises
`ValueError` on this well-formed input instead of returning a Decision. -/
theorem classify_small_sample_raises :
    classify_error defaultSettings req500 hist3
      = .error (.valueError "too many values to unpack (expected 2)") := by
  with_unfolding_all rfl

/-! ## The worked scenario (C3): ten RETRY records, eight resolved -/

theorem foldl_statsStep_const (d : String) (hd : d ≠ "") :
    ∀ (L : List (ErrorSignature × HistMeta × ℚ)) (s t : Nat),
      (∀ e ∈ L, e.2.1.decision = some d) →
      L.foldl statsStep [(d, ⟨s, t⟩)] =
        [(d, ⟨s + L.countP (fun e => decide (e.2.1.outcome = some "success")),
              t + L.length⟩)] := by
  intro L
  induction L with
  | nil => intro s t _; simp
  | cons e rest ih =>
      intro s t h
      have hdec : e.2.1.decision = some d := h e (List.mem_cons_self _ _)
      have htd : truthyDecision e.2.1 = some d := by simp [truthyDecision, hdec, hd]
      rw [List.foldl_cons]
      have hstep : statsStep [(d, ⟨s, t⟩)] e
          = [(d, ⟨s + (if decide (e.2.1.outcome = some "success") then 1 else 0), t + 1⟩)] := by
        simp [statsStep, htd, bumpStats]
      rw [hstep, ih _ _ (fun e2 he2 => h e2 (List.mem_cons_of_mem _ he2))]
      rw [List.countP_cons, List.length_cons]
      cases hsucc : decide (e.2.1.outcome = some "success") <;> simp [hsucc] <;> omega

theorem computeStats_const (d : String) (hd : d ≠ "")
    (L : List (ErrorSignature × HistMeta × ℚ)) (hne : L ≠ [])
    (h : ∀ e ∈ L, e.2.1.decision = some d) :
    computeStats L = [(d, ⟨L.countP (fun e => decide (e.2.1.outcome = some "success")),
                          L.length⟩)] := by
  cases L with
  | nil => exact absurd rfl hne
  | cons e rest =>
      unfold computeStats
      rw [List.foldl_cons]
      have hdec : e.2.1.decision = some d := h e (List.mem_cons_self _ _)
      have htd : truthyDecision e.2.1 = some d := by simp [truthyDecision, hdec, hd]
      have hstep : statsStep [] e
          = [(d, ⟨if decide (e.2.1.outcome = some "success") then 1 else 0, 1⟩)] := by
        simp [statsStep, htd, bumpStats]
      rw [hstep, foldl_statsStep_const d hd rest _ _
            (fun e2 he2 => h e2 (List.mem_cons_of_mem _ he2))]
      rw [List.countP_cons, List.length_cons]
      cases hsucc : decide (e.2.1.outcome = some "success") <;> simp [hsucc] <;> omega

theorem rates_const (L : List (ErrorSignature × HistMeta × ℚ)) (hLne : L ≠ [])
    (hdec : ∀ e ∈ L, e.2.1.decision = some "RETRY")
    (hlen : L.length = 10)
    (hsucc : L.countP (fun e => decide (e.2.1.outcome = some "success")) = 8) :
    compute_decision_success_rates L = [("RETRY", ⟨4/5, 10, 8⟩)] := by
  unfold compute_decision_success_rates
  rw [computeStats_const "RETRY" (by decide) L hLne hdec, hsucc, hlen]
  simp only [List.filterMap_cons, List.filterMap_nil]
  norm_num

/-- C3: whenever the matched set consists of exactly ten records, all RETRY,
eight of them resolved, the defaults give success rate 0.8, sample confidence
1.0, rate confidence 0.6, confidence 0.84 ≥ 0.6, sample 10 ≥ 5, so classify
returns RETRY with `fallback_used = false`, confidence 0.84, evidence success
rate 0.8 and sample size 10. -/
theorem classify_ten_retry (request : ClassifyErrorRequest)
    (historical_data : List (ErrorSignature × HistMeta))
    (L : List (ErrorSignature × HistMeta × ℚ))
    (hL : find_similar_errors request.error_signature historical_data
            defaultSettings.SIMILARITY_THRESHOLD = L)
    (hlen : L.length = 10)
    (hdec : ∀ e ∈ L, e.2.1.decision = some "RETRY")
    (hsucc : L.countP (fun e => decide (e.2.1.outcome = some "success")) = 8) :
    ∃ r, classify_error defaultSettings request historical_data = .ok r ∧
      r.decision = "RETRY" ∧ r.fallback_used = false ∧
      r.confidence_score = 21/25 ∧
      r.evidence.success_rate = 4/5 ∧ r.evidence.sample_size = 10 := by
  have hLne : L ≠ [] := by
    intro h0
    rw [h0] at hlen
    exact absurd hlen (by decide)
  have hne : historical_data ≠ [] := by
    intro h0
    apply hLne
    rw [← hL, h0]
    simp [find_similar_errors, similarCandidates, sortDescBy]
  have hrates := rates_const L hLne hdec hlen hsucc
  have hchoose : choose_best_decision defaultSettings
      [("RETRY", (⟨4/5, 10, 8⟩ : DecisionStats))] L request
      = .pair "RETRY" (mkEvidence defaultSettings
          ((L.map (fun e => e.2.2)).sum / (L.length : ℚ)) "RETRY" ⟨4/5, 10, 8⟩) := by
    unfold choose_best_decision
    rw [if_neg hLne]
    have hscore : (-1 : ℚ) < decision_score_of defaultSettings ⟨4/5, 10, 8⟩ := by
      with_unfolding_all decide
    simp only [selectBestLoop, if_pos hscore, mkEvidence]
    rw [if_neg (show ¬ (confidence_score_of defaultSettings (⟨4/5, 10, 8⟩ : DecisionStats)
          < defaultSettings.CONFIDENCE_THRESHOLD) from by with_unfolding_all decide)]
    rw [if_neg (show ¬ (("RETRY" : String) = ""
          ∨ (10 : Nat) < defaultSettings.MIN_SAMPLE_SIZE) from by decide)]
  simp only [classify_error]
  rw [if_neg hne, hL, if_neg hLne, hrates,
      if_neg (show ¬ ([("RETRY", (⟨4/5, 10, 8⟩ : DecisionStats))]
        : List (String × DecisionStats)) = [] from by simp),
      hchoose]
  refine ⟨_, rfl, rfl, rfl, ?_, rfl, rfl⟩
  show confidence_score_of defaultSettings ⟨4/5, 10, 8⟩ = 21/25
  with_unfolding_all decide


/-- Witness for C3 on the concrete ten-record history. -/
theorem classify_ten_retry_witness :
    ∃ r, classify_error defaultSettings req500 hist10 = .ok r ∧
      r.decision = "RETRY" ∧ r.fallback_used = false ∧
      r.confidence_score = 21/25 ∧
      r.evidence.success_rate = 4/5 ∧ r.evidence.sample_size = 10 :=
  classify_ten_retry req500 hist10 simL10 (by with_unfolding_all rfl)
    (by with_unfolding_all decide) (by with_unfolding_all decide)
    (by with_unfolding_all decide)

end HookHub
